import Mathlib

/-!
Shallow embedding of the adexplorersnapshot-rs core (binary snapshot
decoder, index layer, ACE-to-right translator) and proofs about it.

Machine integers are modelled as `Nat` (unsigned) or `Int` (signed,
two's-complement decoded); byte streams are `List Nat` with each element
a byte value.  Rust functions are translated definition-by-definition;
a `panic!` / out-of-bounds abort is modelled as a distinguished
`panicked` outcome, distinct from a parse error returned to the caller.
-/

namespace ADE

/-- Outcome of a fallible byte parser: `ok rest v` mirrors a nom
`Ok((rest, v))`, `fail` a nom `Err` returned to the caller, and
`panicked` a Rust process abort (explicit `panic!` or an out-of-bounds
slice index). -/
inductive PResult (α : Type) where
  | ok (rest : List Nat) (v : α)
  | fail
  | panicked
  deriving Repr, DecidableEq

/-- Little-endian u16 from two bytes. -/
def leU16 (b0 b1 : Nat) : Nat := b0 + 256 * b1

/-- Little-endian u32 from four bytes. -/
def leU32 (b0 b1 b2 b3 : Nat) : Nat := b0 + 256 * b1 + 65536 * b2 + 16777216 * b3

/-- Uppercase hexadecimal digit, as in Rust's `{:X}` formatting. -/
def hexDigitUpper (n : Nat) : Char :=
  if n < 10 then Char.ofNat (48 + n) else Char.ofNat (55 + n)

/-- Fixed-width uppercase hexadecimal rendering of `n` (`{:0wX}`). -/
def toHexUpper (w : Nat) (n : Nat) : String :=
  String.mk (go w n)
where
  go : Nat → Nat → List Char
    | 0, _ => []
    | w + 1, n => go w (n / 16) ++ [hexDigitUpper (n % 16)]

/-- `str::split(sep)` at the character level: splitting the empty
string yields one empty component. -/
def splitOnCharL (sep : Char) : List Char → List (List Char)
  | [] => [[]]
  | c :: rest =>
    if c = sep then [] :: splitOnCharL sep rest
    else
      match splitOnCharL sep rest with
      | g :: gs => (c :: g) :: gs
      | [] => [[c]]

/-! ## GUID (src/guid/guid.rs) -/

/-- Microsoft GUID: `data1:u32`, `data2:u16`, `data3:u16` little-endian,
`data4` eight raw bytes. -/
structure GUID where
  data1 : Nat
  data2 : Nat
  data3 : Nat
  data4 : List Nat
  deriving Repr, DecidableEq

/-- `GUID::to_string`: `format!("{:08X}-{:04X}-{:04X}-…")` — note the
UPPERCASE hex format specifiers in the source. -/
def GUID.toStr (g : GUID) : String :=
  toHexUpper 8 g.data1 ++ "-" ++ toHexUpper 4 g.data2 ++ "-" ++ toHexUpper 4 g.data3
    ++ "-" ++ toHexUpper 2 (g.data4.getD 0 0) ++ toHexUpper 2 (g.data4.getD 1 0)
    ++ "-" ++ toHexUpper 2 (g.data4.getD 2 0) ++ toHexUpper 2 (g.data4.getD 3 0)
    ++ toHexUpper 2 (g.data4.getD 4 0) ++ toHexUpper 2 (g.data4.getD 5 0)
    ++ toHexUpper 2 (g.data4.getD 6 0) ++ toHexUpper 2 (g.data4.getD 7 0)

/-- `parse_guid`: 16 bytes, first three fields little-endian. -/
def parseGuid (input : List Nat) : PResult GUID :=
  match input with
  | b0 :: b1 :: b2 :: b3 :: b4 :: b5 :: b6 :: b7 :: b8 :: b9 :: b10 :: b11 ::
      b12 :: b13 :: b14 :: b15 :: rest =>
    .ok rest ⟨leU32 b0 b1 b2 b3, leU16 b4 b5, leU16 b6 b7,
      [b8, b9, b10, b11, b12, b13, b14, b15]⟩
  | _ => .fail

/-! ## SID (src/sid/sid.rs) -/

/-- Windows security identifier; `sub_authorities` is the fixed
15-element backing array of the Rust struct. -/
structure SID where
  revision : Nat
  sub_authority_count : Nat
  identifier_authority : List Nat
  sub_authorities : List Nat
  deriving Repr, DecidableEq

/-- Read `n` little-endian u32 values. -/
def readU32List : Nat → List Nat → Option (List Nat × List Nat)
  | 0, input => some ([], input)
  | n + 1, b0 :: b1 :: b2 :: b3 :: rest =>
    match readU32List n rest with
    | some (vs, rest') => some (leU32 b0 b1 b2 b3 :: vs, rest')
    | none => none
  | _ + 1, _ => none

/-- `parse_sid`: revision byte, count byte, 6-byte authority, then
`count` u32 sub-authorities.  The Rust code then executes
`sid.sub_authorities[..count].copy_from_slice(..)` against a 15-element
array, which panics (slice range out of bounds) when `count > 15`;
there is no validation returning an error. -/
def parseSid (input : List Nat) : PResult SID :=
  match input with
  | rev :: cnt :: a0 :: a1 :: a2 :: a3 :: a4 :: a5 :: rest =>
    match readU32List cnt rest with
    | some (subs, rest') =>
      if cnt > 15 then .panicked
      else .ok rest' ⟨rev, cnt, [a0, a1, a2, a3, a4, a5],
        subs ++ List.replicate (15 - cnt) 0⟩
    | none => .fail
  | _ => .fail

/-- `SID::from_bytes`: parse and drop the remainder. -/
def SID.fromBytes (input : List Nat) : PResult SID :=
  match parseSid input with
  | .ok _ sid => .ok [] sid
  | .fail => .fail
  | .panicked => .panicked

/-- `SID::to_string`: `S-{rev}-{auth}-{subs joined by -}` with the
identifier authority decoded as a big-endian integer. -/
def SID.toStr (s : SID) : String :=
  let auth := s.identifier_authority.foldl (fun acc b => acc * 256 + b) 0
  let subs := (s.sub_authorities.take s.sub_authority_count).map Nat.repr
  "S-" ++ Nat.repr s.revision ++ "-" ++ Nat.repr auth ++ "-"
    ++ String.intercalate "-" subs

/-! ## Access mask (src/security_descriptor/access_mask.rs) -/

namespace AccessMask

def GENERIC_READ : Nat := 0x80000000
def GENERIC_WRITE : Nat := 0x40000000
def GENERIC_EXECUTE : Nat := 0x20000000
def GENERIC_ALL : Nat := 0x10000000
def MAXIMUM_ALLOWED : Nat := 0x02000000
def ACCESS_SYSTEM_SECURITY : Nat := 0x01000000
def SYNCHRONIZE : Nat := 0x00100000
def WRITE_OWNER : Nat := 0x00080000
def WRITE_DACL : Nat := 0x00040000
def READ_CONTROL : Nat := 0x00020000
def DELETE : Nat := 0x00010000
def ADS_RIGHT_DS_CONTROL_ACCESS : Nat := 0x00000100
def ADS_RIGHT_DS_CREATE_CHILD : Nat := 0x00000001
def ADS_RIGHT_DS_DELETE_CHILD : Nat := 0x00000002
def ADS_RIGHT_DS_READ_PROP : Nat := 0x00000010
def ADS_RIGHT_DS_WRITE_PROP : Nat := 0x00000020
def ADS_RIGHT_DS_SELF : Nat := 0x00000008

/-- `AccessMask::has_flag`: `self.0 & flag == flag`. -/
def hasFlag (mask flag : Nat) : Bool := mask &&& flag == flag

end AccessMask

/-! ## ACE (src/security_descriptor/ace.rs) -/

/-- `ACEType` discriminant values 0x00–0x13. -/
inductive ACEType where
  | AccessAllowed | AccessDenied | SystemAudit | SystemAlarm
  | AccessAllowedCompound | AccessAllowedObject | AccessDeniedObject
  | SystemAuditObject | SystemAlarmObject | AccessAllowedCallback
  | AccessDeniedCallback | AccessAllowedCallbackObject
  | AccessDeniedCallbackObject | SystemAuditCallback | SystemAlarmCallback
  | SystemAuditCallbackObject | SystemAlarmCallbackObject
  | SystemMandatoryLabel | SystemResourceAttribute | SystemScopedPolicyId
  deriving Repr, DecidableEq

/-- `From<u8> for ACEType`; `none` models the `panic!("Invalid ACE type")`
arm. -/
def aceTypeFromU8 (v : Nat) : Option ACEType :=
  match v with
  | 0x00 => some .AccessAllowed
  | 0x01 => some .AccessDenied
  | 0x02 => some .SystemAudit
  | 0x03 => some .SystemAlarm
  | 0x04 => some .AccessAllowedCompound
  | 0x05 => some .AccessAllowedObject
  | 0x06 => some .AccessDeniedObject
  | 0x07 => some .SystemAuditObject
  | 0x08 => some .SystemAlarmObject
  | 0x09 => some .AccessAllowedCallback
  | 0x0A => some .AccessDeniedCallback
  | 0x0B => some .AccessAllowedCallbackObject
  | 0x0C => some .AccessDeniedCallbackObject
  | 0x0D => some .SystemAuditCallback
  | 0x0E => some .SystemAlarmCallback
  | 0x0F => some .SystemAuditCallbackObject
  | 0x10 => some .SystemAlarmCallbackObject
  | 0x11 => some .SystemMandatoryLabel
  | 0x12 => some .SystemResourceAttribute
  | 0x13 => some .SystemScopedPolicyId
  | _ => none

/-- `ACEFlags::INHERITED_ACE`. -/
def INHERITED_ACE : Nat := 0x10

/-- `ACEFlags::is_set`: `self.0 & flag != 0`. -/
def aceFlagsIsSet (flags flag : Nat) : Bool := flags &&& flag != 0

/-- Common ACE header `(ace_type, ace_flags, ace_size)`. -/
structure ACEHeader where
  ace_type : ACEType
  ace_flags : Nat
  ace_size : Nat
  deriving Repr, DecidableEq

structure AccessAllowedAce where
  header : ACEHeader
  mask : Nat
  sid : SID
  deriving Repr, DecidableEq

structure AccessAllowedObjectAce where
  header : ACEHeader
  mask : Nat
  flags : Nat
  object_type : Option GUID
  inherited_object_type : Option GUID
  sid : SID
  deriving Repr, DecidableEq

structure AccessDeniedAce where
  header : ACEHeader
  mask : Nat
  sid : SID
  deriving Repr, DecidableEq

structure SystemAuditObjectAce where
  header : ACEHeader
  mask : Nat
  flags : Nat
  object_type : Option GUID
  inherited_object_type : Option GUID
  sid : SID
  application_data : List Nat
  deriving Repr, DecidableEq

structure AccessDeniedObjectAce where
  header : ACEHeader
  mask : Nat
  flags : Nat
  object_type : Option GUID
  inherited_object_type : Option GUID
  sid : SID
  deriving Repr, DecidableEq

/-- The `ACE` sum type. -/
inductive ACE where
  | AccessAllowed (a : AccessAllowedAce)
  | AccessAllowedObject (a : AccessAllowedObjectAce)
  | AccessDenied (a : AccessDeniedAce)
  | SystemAuditObject (a : SystemAuditObjectAce)
  | AccessDeniedObject (a : AccessDeniedObjectAce)
  deriving Repr, DecidableEq

def ACE.header : ACE → ACEHeader
  | .AccessAllowed a => a.header
  | .AccessAllowedObject a => a.header
  | .AccessDenied a => a.header
  | .SystemAuditObject a => a.header
  | .AccessDeniedObject a => a.header

def ACE.sid : ACE → SID
  | .AccessAllowed a => a.sid
  | .AccessAllowedObject a => a.sid
  | .AccessDenied a => a.sid
  | .SystemAuditObject a => a.sid
  | .AccessDeniedObject a => a.sid

def ACE.mask : ACE → Nat
  | .AccessAllowed a => a.mask
  | .AccessAllowedObject a => a.mask
  | .AccessDenied a => a.mask
  | .SystemAuditObject a => a.mask
  | .AccessDeniedObject a => a.mask

def ACE.object_type : ACE → Option GUID
  | .AccessAllowedObject a => a.object_type
  | .SystemAuditObject a => a.object_type
  | .AccessDeniedObject a => a.object_type
  | _ => none

/-- `ACEGuid`: the well-known object-type GUIDs recognised by the
translator. -/
inductive ACEGuid where
  | DSReplicationGetChanges
  | DSReplicationGetChangesAll
  | DSReplicationGetChangesInFilteredSet
  | UserForceChangePassword
  | AllGuid
  | WriteMember
  | WriteAllowedToAct
  | WriteSPN
  | AddKeyPrincipal
  | UserAccountRestrictions
  | PKINameFlag
  | PKIEnrollmentFlag
  | Enroll
  | AutoEnroll
  deriving Repr, DecidableEq

/-- `ACEGuid::from_guid`: matches `guid.to_string()` against LOWERCASE
hex string literals, exactly as in the source. -/
def ACEGuid.fromGuid (guid : GUID) : Option ACEGuid :=
  match guid.toStr with
  | "1131f6aa-9c07-11d1-f79f-00c04fc2dcd2" => some .DSReplicationGetChanges
  | "1131f6ad-9c07-11d1-f79f-00c04fc2dcd2" => some .DSReplicationGetChangesAll
  | "89e95b76-444d-4c62-991a-0facbeda640c" => some .DSReplicationGetChangesInFilteredSet
  | "00299570-246d-11d0-a768-00aa006e0529" => some .UserForceChangePassword
  | "00000000-0000-0000-0000-000000000000" => some .AllGuid
  | "bf9679c0-0de6-11d0-a285-00aa003049e2" => some .WriteMember
  | "3f78c3e5-f79a-46bd-a0b8-9d18116ddc79" => some .WriteAllowedToAct
  | "f3a64788-5306-11d1-a9c5-0000f80367c1" => some .WriteSPN
  | "5b47d60f-6090-40b2-9f37-2a4de88f3063" => some .AddKeyPrincipal
  | "4c164200-20c0-11d0-a768-00aa006e0529" => some .UserAccountRestrictions
  | "ea1dddc4-60ff-416e-8cc0-17cee534bce7" => some .PKINameFlag
  | "d15ef7d8-f226-46db-ae79-b34e560bd12c" => some .PKIEnrollmentFlag
  | "0e10c968-78fb-11d2-90d4-00c04f79dc55" => some .Enroll
  | "a05b8cc2-17bc-4802-a710-e7c15ab866a2" => some .AutoEnroll
  | _ => none

/-- `ACE::object_type_s`. -/
def ACE.object_type_s (ace : ACE) : Option ACEGuid :=
  match ace.object_type with
  | some ot => ACEGuid.fromGuid ot
  | none => none

/-! ## ObjectType and the right translator
(src/parser/parser.rs, src/output/bloodhound/utils/aces.rs) -/

inductive ObjectType where
  | Computer | User | UserDisabled | Group | Domain | OU | Container
  | GPO | Unknown
  deriving Repr, DecidableEq

/-- `HashSet::insert` on the string set, keeping first-insertion order. -/
def insSet (s : List String) (x : String) : List String :=
  if x ∈ s then s else s ++ [x]

/-- The `// WriteDACL and WriteOwner` block of `Aces::rights`. -/
def rightsWriteDaclOwner (ace_mask : Nat) (r : List String) : List String :=
  let r := if AccessMask.hasFlag ace_mask AccessMask.WRITE_DACL then
    insSet r "WriteDacl" else r
  if AccessMask.hasFlag ace_mask AccessMask.WRITE_OWNER then
    insSet r "WriteOwner" else r

/-- The `// AddSelf` block of `Aces::rights`. -/
def rightsAddSelf (ace_mask : Nat) (object_type : ObjectType)
    (ace_type : Option ACEGuid) (r : List String) : List String :=
  if AccessMask.hasFlag ace_mask AccessMask.ADS_RIGHT_DS_SELF
      && !AccessMask.hasFlag ace_mask AccessMask.ADS_RIGHT_DS_WRITE_PROP
      && !AccessMask.hasFlag ace_mask AccessMask.GENERIC_WRITE
      && object_type == ObjectType.Group
      && ace_type == some ACEGuid.WriteMember then
    insSet r "AddSelf"
  else r

/-- The `// ExtendedRights` block of `Aces::rights`. -/
def rightsExtended (ace_mask : Nat) (object_type : ObjectType)
    (ace_type : Option ACEGuid) (has_laps : Bool) (r : List String) :
    List String :=
  if AccessMask.hasFlag ace_mask AccessMask.ADS_RIGHT_DS_CONTROL_ACCESS then
    match object_type with
    | ObjectType.Domain =>
      match ace_type with
      | some ACEGuid.DSReplicationGetChanges => insSet r "GetChanges"
      | some ACEGuid.DSReplicationGetChangesAll => insSet r "GetChangesAll"
      | some ACEGuid.DSReplicationGetChangesInFilteredSet =>
        insSet r "GetChangesInFilteredSet"
      | some ACEGuid.AllGuid => insSet r "AllExtendedRights"
      | none => insSet r "AllExtendedRights"
      | _ => r
    | ObjectType.User =>
      match ace_type with
      | some ACEGuid.UserForceChangePassword => insSet r "ForceChangePassword"
      | some ACEGuid.AllGuid => insSet r "AllExtendedRights"
      | none => insSet r "AllExtendedRights"
      | _ => r
    | ObjectType.Computer =>
      if has_laps then
        if ace_type.isNone || ace_type == some ACEGuid.AllGuid then
          insSet r "AllExtendedRights"
        else r
      else r
    | _ => r
  else r

/-- The `// GenericWrite and WriteProperty` block of `Aces::rights`. -/
def rightsWriteProp (ace_mask : Nat) (object_type : ObjectType)
    (ace_type : Option ACEGuid) (r : List String) : List String :=
  if AccessMask.hasFlag ace_mask AccessMask.GENERIC_WRITE
      || AccessMask.hasFlag ace_mask AccessMask.ADS_RIGHT_DS_WRITE_PROP then
    let r := match object_type with
      | ObjectType.User | ObjectType.Group | ObjectType.Computer
      | ObjectType.GPO =>
        if ace_type.isNone || ace_type == some ACEGuid.AllGuid then
          insSet r "GenericWrite"
        else r
      | _ => r
    match object_type, ace_type with
    | ObjectType.User, some ACEGuid.WriteSPN => insSet r "WriteSPN"
    | ObjectType.Computer, some ACEGuid.WriteAllowedToAct =>
      insSet r "AddAllowedToAct"
    | ObjectType.Computer, some ACEGuid.UserAccountRestrictions =>
      insSet r "WriteAccountRestrictions"
    | ObjectType.Group, some ACEGuid.WriteMember => insSet r "AddMember"
    | ObjectType.User, some ACEGuid.AddKeyPrincipal =>
      insSet r "AddKeyCredentialLink"
    | ObjectType.Computer, some ACEGuid.AddKeyPrincipal =>
      insSet r "AddKeyCredentialLink"
    | _, _ => r
  else r

/-- `Aces::rights`: map one allow ACE and a target object kind to the
set of BloodHound right names.  The blocks carry the same comments as
in the source; `GenericAll` returns early. -/
def rights (ace : ACE) (object_type : ObjectType) (has_laps : Bool) :
    List String :=
  let ace_mask := ace.mask
  let ace_type := ace.object_type_s
  if AccessMask.hasFlag ace_mask AccessMask.GENERIC_ALL then
    -- early return to avoid the other checks
    if ace_type.isNone || ace_type == some ACEGuid.AllGuid then
      insSet [] "GenericAll"
    else []
  else
    rightsWriteProp ace_mask object_type ace_type
      (rightsExtended ace_mask object_type ace_type has_laps
        (rightsAddSelf ace_mask object_type ace_type
          (rightsWriteDaclOwner ace_mask [])))

/-! ## ACE and ACL byte parsers
(src/security_descriptor/ace.rs, src/security_descriptor/acl.rs) -/

/-- Sequencing for `PResult`: errors and panics propagate. -/
def pbind {α β : Type} (x : PResult α) (f : List Nat → α → PResult β) :
    PResult β :=
  match x with
  | .ok rest v => f rest v
  | .fail => .fail
  | .panicked => .panicked

/-- `parse_access_mask`: a little-endian u32. -/
def parseAccessMask (input : List Nat) : PResult Nat :=
  match input with
  | b0 :: b1 :: b2 :: b3 :: rest => .ok rest (leU32 b0 b1 b2 b3)
  | _ => .fail

/-- `parse_ace_header`; `ACEType::from` panics on an invalid
discriminant. -/
def parseAceHeader (input : List Nat) : PResult ACEHeader :=
  match input with
  | t :: f :: s0 :: s1 :: rest =>
    match aceTypeFromU8 t with
    | some ty => .ok rest ⟨ty, f, leU16 s0 s1⟩
    | none => .panicked
  | _ => .fail

/-- The optional `object_type` / `inherited_object_type` GUID pair
selected by bits 0x1 / 0x2 of the object-ACE `flags` field. -/
def parseObjectGuids (flags : Nat) (input : List Nat) :
    PResult (Option GUID × Option GUID) :=
  let step1 : PResult (Option GUID) :=
    if flags &&& 1 != 0 then
      pbind (parseGuid input) (fun rest g => .ok rest (some g))
    else .ok input none
  pbind step1 fun rest ot =>
    if flags &&& 2 != 0 then
      pbind (parseGuid rest) (fun rest' g => .ok rest' (ot, some g))
    else .ok rest (ot, none)

/-- `parse_access_allowed_ace`. -/
def parseAccessAllowedAce (input : List Nat) (header : ACEHeader) :
    PResult AccessAllowedAce :=
  pbind (parseAccessMask input) fun rest mask =>
    pbind (parseSid rest) fun rest' sid => .ok rest' ⟨header, mask, sid⟩

/-- `parse_access_denied_ace`. -/
def parseAccessDeniedAce (input : List Nat) (header : ACEHeader) :
    PResult AccessDeniedAce :=
  pbind (parseAccessMask input) fun rest mask =>
    pbind (parseSid rest) fun rest' sid => .ok rest' ⟨header, mask, sid⟩

/-- `parse_access_allowed_object_ace`. -/
def parseAccessAllowedObjectAce (input : List Nat) (header : ACEHeader) :
    PResult AccessAllowedObjectAce :=
  pbind (parseAccessMask input) fun rest mask =>
    pbind (parseAccessMask rest) fun rest flags =>
      pbind (parseObjectGuids flags rest) fun rest p =>
        pbind (parseSid rest) fun rest sid =>
          .ok rest ⟨header, mask, flags, p.1, p.2, sid⟩

/-- `parse_access_denied_object_ace`. -/
def parseAccessDeniedObjectAce (input : List Nat) (header : ACEHeader) :
    PResult AccessDeniedObjectAce :=
  pbind (parseAccessMask input) fun rest mask =>
    pbind (parseAccessMask rest) fun rest flags =>
      pbind (parseObjectGuids flags rest) fun rest p =>
        pbind (parseSid rest) fun rest sid =>
          .ok rest ⟨header, mask, flags, p.1, p.2, sid⟩

/-- `parse_system_audit_object_ace`: mask, flags, optional GUIDs, an
8-byte reserved block, the SID, then `ace_size` bytes of application
data. -/
def parseSystemAuditObjectAce (input : List Nat) (header : ACEHeader) :
    PResult SystemAuditObjectAce :=
  pbind (parseAccessMask input) fun rest mask =>
    pbind (parseAccessMask rest) fun rest flags =>
      pbind (parseObjectGuids flags rest) fun rest p =>
        if rest.length < 8 then .fail
        else
          pbind (parseSid (rest.drop 8)) fun rest sid =>
            if rest.length < header.ace_size then .fail
            else .ok (rest.drop header.ace_size)
              ⟨header, mask, flags, p.1, p.2, sid, rest.take header.ace_size⟩

/-- `parse_ace`: header then the variant body; the catch-all arm of the
source is `unimplemented!`, a panic. -/
def parseAce (input : List Nat) : PResult ACE :=
  pbind (parseAceHeader input) fun rest header =>
    match header.ace_type with
    | .AccessAllowed =>
      pbind (parseAccessAllowedAce rest header)
        (fun rest' a => .ok rest' (ACE.AccessAllowed a))
    | .AccessAllowedObject =>
      pbind (parseAccessAllowedObjectAce rest header)
        (fun rest' a => .ok rest' (ACE.AccessAllowedObject a))
    | .AccessDenied =>
      pbind (parseAccessDeniedAce rest header)
        (fun rest' a => .ok rest' (ACE.AccessDenied a))
    | .SystemAuditObject =>
      pbind (parseSystemAuditObjectAce rest header)
        (fun rest' a => .ok rest' (ACE.SystemAuditObject a))
    | .AccessDeniedObject =>
      pbind (parseAccessDeniedObjectAce rest header)
        (fun rest' a => .ok rest' (ACE.AccessDeniedObject a))
    | _ => .panicked

/-- `count(parse_ace, n)`. -/
def parseAces : Nat → List Nat → PResult (List ACE)
  | 0, input => .ok input []
  | n + 1, input =>
    pbind (parseAce input) fun rest ace =>
      pbind (parseAces n rest) fun rest' aces => .ok rest' (ace :: aces)

/-- Parsed ACL record. -/
structure ACL where
  acl_revision : Nat
  sbz1 : Nat
  acl_size : Nat
  ace_count : Nat
  sbz2 : Nat
  aces : List ACE
  deriving Repr, DecidableEq

/-- `parse_acl`: 8-byte header then `ace_count` ACEs.  The revision,
`sbz1` and `sbz2` checks in the source `panic!` instead of returning an
error (the source carries a TODO to that effect). -/
def parseAcl (input : List Nat) : PResult ACL :=
  match input with
  | rev :: sb1 :: sz0 :: sz1 :: c0 :: c1 :: sb2a :: sb2b :: rest =>
    let acl_size := leU16 sz0 sz1
    let ace_count := leU16 c0 c1
    let sbz2 := leU16 sb2a sb2b
    if rev != 2 && rev != 4 then .panicked
    else if sb1 != 0 then .panicked
    else if sbz2 != 0 then .panicked
    else
      pbind (parseAces ace_count rest) fun rest' aces =>
        .ok rest' ⟨rev, sb1, acl_size, ace_count, sbz2, aces⟩
  | _ => .fail

/-! ## Stream reader (std::io::Cursor over a byte slice)

`Read::read_exact` fails when fewer bytes remain than requested;
`Seek::seek(SeekFrom::Start(p))` on a `Cursor` always succeeds, even
past the end of the data. -/

structure Rdr where
  data : List Nat
  pos : Nat
  deriving Repr, DecidableEq

/-- `read_exact` of `n` bytes. -/
def readBytes (r : Rdr) (n : Nat) : Option (List Nat × Rdr) :=
  if r.pos + n ≤ r.data.length then
    some ((r.data.drop r.pos).take n, ⟨r.data, r.pos + n⟩)
  else none

/-- `seek(SeekFrom::Start(p))` on a cursor: always succeeds. -/
def seekTo (p : Nat) (r : Rdr) : Rdr := ⟨r.data, p⟩

/-- `read_u16::<LittleEndian>`. -/
def readU16R (r : Rdr) : Option (Nat × Rdr) :=
  match readBytes r 2 with
  | some ([b0, b1], r') => some (leU16 b0 b1, r')
  | _ => none

/-- `read_u32::<LittleEndian>`. -/
def readU32R (r : Rdr) : Option (Nat × Rdr) :=
  match readBytes r 4 with
  | some ([b0, b1, b2, b3], r') => some (leU32 b0 b1 b2 b3, r')
  | _ => none

/-- `read_i32::<LittleEndian>` (two's complement). -/
def readI32R (r : Rdr) : Option (Int × Rdr) :=
  match readU32R r with
  | some (v, r') =>
    some (if v < 2147483648 then (v : Int) else (v : Int) - 4294967296, r')
  | none => none

/-- `read_i64::<LittleEndian>` (two's complement). -/
def readI64R (r : Rdr) : Option (Int × Rdr) :=
  match readBytes r 8 with
  | some ([b0, b1, b2, b3, b4, b5, b6, b7], r') =>
    let v := leU32 b0 b1 b2 b3 + 4294967296 * leU32 b4 b5 b6 b7
    some (if v < 9223372036854775808 then (v : Int)
      else (v : Int) - 18446744073709551616, r')
  | _ => none

/-- `char::from_u32` with U+FFFD for invalid code points (surrogates). -/
def charOfWord (w : Nat) : Char :=
  if w.isValidChar then Char.ofNat w else Char.ofNat 0xFFFD

/-- Code units of a NUL-terminated UTF-16 string plus the number of
bytes consumed, taken from the head of a byte list; `none` on EOF
before the terminator. -/
def ntWChars : List Nat → Option (List Char × Nat)
  | a :: b :: rest =>
    let w := leU16 a b
    if w = 0 then some ([], 2)
    else
      match ntWChars rest with
      | some (cs, n) => some (charOfWord w :: cs, n + 2)
      | none => none
  | _ => none

/-- `read_next_wstring`: words until U+0000. -/
def readNtWString (r : Rdr) : Option (String × Rdr) :=
  match ntWChars (r.data.drop r.pos) with
  | some (cs, n) => some (String.mk cs, ⟨r.data, r.pos + n⟩)
  | none => none

/-! ## Attribute decoding (src/parser/parser.rs) -/

/-- Decoded attribute value variants. -/
inductive AttributeValue where
  | string (s : String)
  | OctetString (bytes : List Nat)
  | Boolean (b : Bool)
  | Integer (v : Nat)
  | LargeInteger (v : Int)
  | UTCTime (v : Int)
  | NTSecurityDescriptor (bytes : List Nat)
  deriving Repr, DecidableEq

structure Attribute where
  num_values : Nat
  values : List AttributeValue
  deriving Repr, DecidableEq

/-- SYSTEMTIME: eight u16 fields. -/
structure SystemTimeW where
  year : Nat
  month : Nat
  day_of_week : Nat
  day : Nat
  hour : Nat
  minute : Nat
  second : Nat
  milliseconds : Nat
  deriving Repr, DecidableEq

def isLeapYear (y : Nat) : Bool :=
  (y % 4 == 0 && y % 100 != 0) || y % 400 == 0

def daysInMonth (y m : Nat) : Nat :=
  match m with
  | 1 => 31 | 2 => if isLeapYear y then 29 else 28 | 3 => 31 | 4 => 30
  | 5 => 31 | 6 => 30 | 7 => 31 | 8 => 31 | 9 => 30 | 10 => 31 | 11 => 30
  | 12 => 31
  | _ => 0

/-- Days from 1970-01-01 to year/month/day of the proleptic Gregorian
calendar (year shifted by +400 to stay in `Nat` internally). -/
def daysFromCivil (y m d : Nat) : Int :=
  let yy := y + 400 - (if m ≤ 2 then 1 else 0)
  let era := yy / 400
  let yoe := yy % 400
  let mp := (m + 9) % 12
  let doy := (153 * mp + 2) / 5 + d - 1
  let doe := yoe * 365 + yoe / 4 - yoe / 100 + doy
  (era * 146097 + doe : Int) - 146097 - 719468

/-- `SystemTime::to_unix_timestamp` via
`chrono::Utc.with_ymd_and_hms(..)`, which yields a single result
exactly for a valid calendar date and in-range time of day. -/
def SystemTimeW.toUnixTimestamp (t : SystemTimeW) : Option Int :=
  if 1 ≤ t.month && t.month ≤ 12 && 1 ≤ t.day
      && t.day ≤ daysInMonth t.year t.month && t.hour < 24
      && t.minute < 60 && t.second < 60 then
    some (daysFromCivil t.year t.month t.day * 86400
      + t.hour * 3600 + t.minute * 60 + t.second)
  else none

/-- `read_u32_into`: `n` little-endian u32 values. -/
def readU32ListR : Nat → Rdr → Option (List Nat × Rdr)
  | 0, r => some ([], r)
  | n + 1, r =>
    match readU32R r with
    | some (v, r') =>
      match readU32ListR n r' with
      | some (vs, r'') => some (v :: vs, r'')
      | none => none
    | none => none

/-- One string value of `parse_string_values`: save the cursor, seek to
`attribute_start + offset`, read a NUL-terminated wide string, restore
the cursor. -/
def readStringValue (attribute_start : Nat) (r : Rdr) (offset : Nat) :
    Option (AttributeValue × Rdr) :=
  let current_pos := r.pos
  match readNtWString (seekTo (attribute_start + offset) r) with
  | some (s, r') => some (.string s, seekTo current_pos r')
  | none => none

def readStringValues (attribute_start : Nat) :
    List Nat → Rdr → Option (List AttributeValue × Rdr)
  | [], r => some ([], r)
  | off :: offs, r =>
    match readStringValue attribute_start r off with
    | some (v, r') =>
      match readStringValues attribute_start offs r' with
      | some (vs, r'') => some (v :: vs, r'')
      | none => none
    | none => none

/-- `parse_string_values`: `num_values` u32 offsets, then the strings
they point at (relative to the attribute start). -/
def parseStringValues (r : Rdr) (num_values : Nat)
    (attribute_start : Nat) : Option (List AttributeValue × Rdr) :=
  match readU32ListR num_values r with
  | some (offsets, r') => readStringValues attribute_start offsets r'
  | none => none

def readOctetBlobs : List Nat → Rdr → Option (List AttributeValue × Rdr)
  | [], r => some ([], r)
  | len :: lens, r =>
    match readBytes r len with
    | some (blob, r') =>
      match readOctetBlobs lens r' with
      | some (vs, r'') => some (.OctetString blob :: vs, r'')
      | none => none
    | none => none

/-- `parse_octet_string_values`: `num_values` u32 lengths then the
blobs, sequentially. -/
def parseOctetStringValues (r : Rdr) (num_values : Nat) :
    Option (List AttributeValue × Rdr) :=
  match readU32ListR num_values r with
  | some (lengths, r') => readOctetBlobs lengths r'
  | none => none

def readIntegers : Nat → Rdr → Option (List AttributeValue × Rdr)
  | 0, r => some ([], r)
  | n + 1, r =>
    match readU32R r with
    | some (v, r') =>
      match readIntegers n r' with
      | some (vs, r'') => some (.Integer v :: vs, r'')
      | none => none
    | none => none

def readLargeIntegers : Nat → Rdr → Option (List AttributeValue × Rdr)
  | 0, r => some ([], r)
  | n + 1, r =>
    match readI64R r with
    | some (v, r') =>
      match readLargeIntegers n r' with
      | some (vs, r'') => some (.LargeInteger v :: vs, r'')
      | none => none
    | none => none

def readSystemTimeW (r : Rdr) : Option (SystemTimeW × Rdr) :=
  match readU16R r with
  | some (year, r) => match readU16R r with
    | some (month, r) => match readU16R r with
      | some (day_of_week, r) => match readU16R r with
        | some (day, r) => match readU16R r with
          | some (hour, r) => match readU16R r with
            | some (minute, r) => match readU16R r with
              | some (second, r) => match readU16R r with
                | some (ms, r) =>
                  some (⟨year, month, day_of_week, day, hour, minute,
                    second, ms⟩, r)
                | none => none
              | none => none
            | none => none
          | none => none
        | none => none
      | none => none
    | none => none
  | none => none

/-- `parse_utc_time_values`: each SYSTEMTIME converted to UNIX seconds;
an out-of-range date is an error. -/
def readUtcTimes : Nat → Rdr → Option (List AttributeValue × Rdr)
  | 0, r => some ([], r)
  | n + 1, r =>
    match readSystemTimeW r with
    | some (t, r') =>
      match t.toUnixTimestamp with
      | some ts =>
        match readUtcTimes n r' with
        | some (vs, r'') => some (.UTCTime ts :: vs, r'')
        | none => none
      | none => none
    | none => none

/-- `parse_nt_security_descriptor`: u32 length then that many bytes,
kept opaque. -/
def parseNtSecurityDescriptorValues (r : Rdr) :
    Option (List AttributeValue × Rdr) :=
  match readU32R r with
  | some (len, r') =>
    match readBytes r' len with
    | some (buffer, r'') => some ([.NTSecurityDescriptor buffer], r'')
    | none => none
  | none => none

/-- `Attribute::parse`: `num_values` then the payload selected by the
property's ADS type; an unhandled ADS type or a malformed payload is an
error returned to `Object::parse`. -/
def Attribute.parse (r : Rdr) (ads_type : Nat) : Option (Attribute × Rdr) :=
  let attribute_start := r.pos
  match readU32R r with
  | none => none
  | some (num_values, r) =>
    let payload : Option (List AttributeValue × Rdr) :=
      if ads_type = 1 ∨ ads_type = 2 ∨ ads_type = 3 ∨ ads_type = 4
          ∨ ads_type = 5 ∨ ads_type = 12 then
        parseStringValues r num_values attribute_start
      else if ads_type = 8 then parseOctetStringValues r num_values
      else if ads_type = 6 then
        if num_values ≠ 1 then none
        else match readU32R r with
          | some (v, r') => some ([.Boolean (v ≠ 0)], r')
          | none => none
      else if ads_type = 7 then readIntegers num_values r
      else if ads_type = 10 then readLargeIntegers num_values r
      else if ads_type = 9 then readUtcTimes num_values r
      else if ads_type = 25 then parseNtSecurityDescriptorValues r
      else none
    match payload with
    | some (values, r') => some (⟨num_values, values⟩, r')
    | none => none

/-! ## Object decoding (src/parser/parser.rs) -/

/-- Schema property record. -/
structure Property where
  prop_name : String
  unk1 : Int
  ads_type : Nat
  dn : String
  schema_id_guid : GUID
  attribute_security_guid : GUID
  deriving Repr, DecidableEq

/-- One mapping-table entry: property index and SIGNED byte offset
relative to the object start. -/
structure MappingEntry where
  attr_index : Nat
  attr_offset : Int
  deriving Repr, DecidableEq

def readMappingTable : Nat → Rdr → Option (List MappingEntry × Rdr)
  | 0, r => some ([], r)
  | n + 1, r =>
    match readU32R r with
    | some (idx, r') =>
      match readI32R r' with
      | some (off, r'') =>
        match readMappingTable n r'' with
        | some (es, r3) => some (⟨idx, off⟩ :: es, r3)
        | none => none
      | none => none
    | none => none

/-- The fallible prefix of `Object::parse`: `obj_size`, `table_size`
and the mapping table, the only reads whose failure propagates out of
`Object::parse`. -/
def parseObjHeader (r : Rdr) :
    Option ((Nat × Nat × List MappingEntry) × Rdr) :=
  match readU32R r with
  | some (obj_size, r1) =>
    match readU32R r1 with
    | some (table_size, r2) =>
      match readMappingTable table_size r2 with
      | some (mt, r3) => some ((obj_size, table_size, mt), r3)
      | none => none
    | none => none
  | none => none

/-- The `filter_map` closure body of `Object::parse`: resolve the
property, compute the absolute attribute position (rejecting negative
addresses via `checked_sub`), seek there, decode, restore the cursor.
Every failure skips the entry (`?` inside `filter_map` over `Option`).
The cursor state left behind by a failed decode is unobservable — every
later access seeks first and the final `obj_start + obj_size` seek is
authoritative — so the reader is restored here in that case too. -/
def decodeEntry (props : List Property) (start_pos : Nat)
    (entry : MappingEntry) (r : Rdr) :
    Option (String × Attribute) × Rdr :=
  match props.get? entry.attr_index with
  | none => (none, r)
  | some property =>
    let attr_pos? : Option Nat :=
      if entry.attr_offset ≥ 0 then some (start_pos + entry.attr_offset.toNat)
      else if entry.attr_offset.natAbs ≤ start_pos then
        some (start_pos - entry.attr_offset.natAbs)
      else none
    match attr_pos? with
    | none => (none, r)
    | some attr_pos =>
      let current_pos := r.pos
      match Attribute.parse (seekTo attr_pos r) property.ads_type with
      | none => (none, r)
      | some (attr, r2) =>
        (some (property.prop_name, attr), seekTo current_pos r2)

/-- Traverse the mapping table collecting the successfully decoded
attributes in order. -/
def decodeAttrs (props : List Property) (start_pos : Nat) :
    List MappingEntry → Rdr → (List (String × Attribute) × Rdr)
  | [], r => ([], r)
  | e :: es, r =>
    match decodeEntry props start_pos e r with
    | (some kv, r') =>
      let (rest, r'') := decodeAttrs props start_pos es r'
      (kv :: rest, r'')
    | (none, r') => decodeAttrs props start_pos es r'

/-- `HashMap` lookup for an insertion-ordered entry list: the last
insert for a key wins. -/
def hmGet {β : Type} (m : List (String × β)) (k : String) : Option β :=
  (m.reverse.find? (fun p => p.1 == k)).map (fun p => p.2)

/-- Decoded directory object. -/
structure Object where
  obj_size : Nat
  table_size : Nat
  mapping_table : List MappingEntry
  attributes : List (String × Attribute)
  deriving Repr, DecidableEq

/-- `Object::parse`: header and mapping table (fallible), the
per-entry attribute decoding (failures skip the entry), then the
authoritative seek to `obj_start + obj_size`. -/
def Object.parse (r : Rdr) (props : List Property) :
    Except Unit (Object × Rdr) :=
  let start_pos := r.pos
  match parseObjHeader r with
  | none => .error ()
  | some ((obj_size, table_size, mt), r1) =>
    let decoded := decodeAttrs props start_pos mt r1
    let r' := seekTo (start_pos + obj_size) decoded.2
    .ok (⟨obj_size, table_size, mt, decoded.1⟩, r')

/-! ## Object accessors (src/parser/parser.rs) -/

def AttributeValue.as_string : AttributeValue → Option String
  | .string s => some s
  | _ => none

def AttributeValue.as_integer : AttributeValue → Option Nat
  | .Integer v => some v
  | _ => none

/-- `Object::get`. -/
def Object.get (o : Object) (attr_name : String) :
    Option (List AttributeValue) :=
  (hmGet o.attributes attr_name).map (fun a => a.values)

/-- `Object::get_first`. -/
def Object.get_first (o : Object) (attr_name : String) :
    Option AttributeValue :=
  (o.get attr_name).bind (fun values => values.head?)

/-- `Object::get_attribute_classes`. -/
def Object.get_attribute_classes (o : Object) : Option (List String) :=
  (o.get "objectClass").map (fun values =>
    values.filterMap AttributeValue.as_string)

/-- `Object::has_attribute_class`. -/
def Object.has_attribute_class (o : Object) (c : String) : Bool :=
  match o.get_attribute_classes with
  | some classes => classes.any (fun x => x == c)
  | none => false

/-- The `userAccountControl` test shared by both `user` branches of
`get_type`. -/
def Object.userType (o : Object) : Option ObjectType :=
  match (o.get_first "userAccountControl").bind AttributeValue.as_integer with
  | some uac =>
    some (if uac &&& 0x00000002 != 0 then ObjectType.UserDisabled
      else ObjectType.User)
  | none => none

/-- The ordered `objectClass` scan of `get_type`. -/
def Object.classScan (o : Object) : List String → ObjectType
  | [] => .Unknown
  | c :: rest =>
    match c with
    | "computer" => .Computer
    | "user" =>
      match o.userType with
      | some t => t
      | none => o.classScan rest
    | "group" => .Group
    | "domain" => .Domain
    | "organizationalUnit" => .OU
    | "container" => .Container
    | "groupPolicyContainer" => .GPO
    | _ => o.classScan rest

/-- `Object::get_type`: `gPCFileSysPath` forces GPO; a `user` class
with a `userAccountControl` value decides User/UserDisabled; otherwise
the first matching class in declared order wins. -/
def Object.get_type (o : Object) : ObjectType :=
  if (o.get_first "gPCFileSysPath").isSome then .GPO
  else if o.has_attribute_class "user" && o.userType.isSome then
    o.userType.getD .Unknown
  else
    match o.get_attribute_classes with
    | some classes => o.classScan classes
    | none => .Unknown

/-- `type_string` (src/output/bloodhound/common.rs). -/
def type_string (o : Object) : String :=
  match o.get_type with
  | .Computer => "Computer"
  | .Domain => "Domain"
  | .Group => "Group"
  | .User => "User"
  | .UserDisabled => "User"
  | .OU => "OU"
  | .GPO => "GPO"
  | .Container => "Container"
  | .Unknown => "Unknown"

/-! ## Snapshot and caches (src/parser/parser.rs, src/parser/cache.rs)

The hash maps backing the caches are modelled as functions to
`Option`; `insert` overwrites.  The class-table fields not consulted by
the cache builder (blocks, unknown table, superior/auxiliary lists) are
omitted as opaque. -/

structure Class where
  class_name : String
  dn : String
  common_class_name : String
  sub_class_of : String
  schema_id_guid : GUID
  deriving Repr, DecidableEq

structure Snapshot where
  properties : List Property
  objects : List Object
  classes : List Class

structure Caches where
  root_domain : Option String
  domain_sid : Option SID
  sid_cache : SID → Option Nat
  dn_cache : String → Option Nat
  computer_cache : String → Option Nat
  object_type_guid_cache : Nat → Option GUID
  class_cache : String → Option Nat
  domain_cache : String → Option Nat
  domain_controllers : List Nat
  certificate_template_cache : String → List String

/-- `Caches::new`. -/
def Caches.empty : Caches :=
  ⟨none, none, fun _ => none, fun _ => none, fun _ => none, fun _ => none,
    fun _ => none, fun _ => none, [], fun _ => []⟩

/-- `str::to_uppercase`, modelled character-wise (ASCII case mapping;
kernel-computable, unlike `String.toUpper`'s iterator loop). -/
def toUpperStr (s : String) : String := ⟨s.data.map Char.toUpper⟩

/-- `str::to_lowercase`, modelled character-wise. -/
def toLowerStr (s : String) : String := ⟨s.data.map Char.toLower⟩

/-- `SIDCache::insert`. -/
def sidInsert (m : SID → Option Nat) (k : SID) (v : Nat) :
    SID → Option Nat :=
  fun s => if s = k then some v else m s

/-- `DNCache::insert` / `ComputerCache::insert`: the key is
upper-cased. -/
def upperInsert (m : String → Option Nat) (k : String) (v : Nat) :
    String → Option Nat :=
  fun s => if s = toUpperStr k then some v else m s

/-- Plain string-keyed insert (`ClassCache`, `DomainCache`). -/
def strInsert (m : String → Option Nat) (k : String) (v : Nat) :
    String → Option Nat :=
  fun s => if s = k then some v else m s

/-- `Caches::get_object_sid`: first `objectSid` value as an
octet-string SID.  `SID::from_bytes(..).ok()` converts a parse error to
absence, but a `panicked` outcome aborts the process: `none` here. -/
def getObjectSid (obj : Object) : Option (Option SID) :=
  match hmGet obj.attributes "objectSid" with
  | none => some none
  | some attr =>
    match attr.values.head? with
    | some (.OctetString octet_string) =>
      match SID.fromBytes octet_string with
      | .ok _ sid => some (some sid)
      | .fail => some none
      | .panicked => none
    | _ => some none

/-- `Caches::get_object_dn`. -/
def getObjectDn (obj : Object) : Option String :=
  match hmGet obj.attributes "distinguishedName" with
  | none => none
  | some attr =>
    match attr.values.head? with
    | some (.string dn) => some dn
    | _ => none

/-- `Caches::get_object_dnshostname`. -/
def getObjectDnsHostName (obj : Object) : Option String :=
  match hmGet obj.attributes "dNSHostName" with
  | none => none
  | some attr =>
    match attr.values.head? with
    | some (.string hostname) => some hostname
    | _ => none

/-- `Caches::get_object_name`. -/
def getObjectName (obj : Object) : Option String :=
  match hmGet obj.attributes "name" with
  | none => none
  | some attr =>
    match attr.values.head? with
    | some (.string name) => some name
    | _ => none

/-- `get_attribute_value::<u32>`. -/
def getAttrU32 (obj : Object) (attr_name : String) : Option Nat :=
  (hmGet obj.attributes attr_name).bind fun attr =>
    attr.values.head?.bind AttributeValue.as_integer

/-- `get_attribute_value::<String>`. -/
def getAttrString (obj : Object) (attr_name : String) : Option String :=
  (hmGet obj.attributes attr_name).bind fun attr =>
    attr.values.head?.bind AttributeValue.as_string

/-- `get_attribute_value::<Vec<String>>` (a single string becomes a
one-element vector). -/
def getAttrStringVec (obj : Object) (attr_name : String) :
    Option (List String) :=
  (getAttrString obj attr_name).map (fun s => [s])

/-- `Caches::is_computer`: `sAMAccountType == 805306369`. -/
def isComputer (obj : Object) : Bool :=
  match hmGet obj.attributes "sAMAccountType" with
  | some attr =>
    match attr.values.head? with
    | some (.Integer account_type) => account_type == 805306369
    | _ => false
  | none => false

/-- The `// Build Domain cache` block of the per-object cache loop. -/
def applyDomainBlock (c : Caches) (idx : Nat) (obj : Object)
    (sid : Option SID) (lowercase_classes : List String) : Caches :=
  if lowercase_classes.contains "domain" then
    let c := { c with root_domain := getObjectDn obj, domain_sid := sid }
    match getObjectDn obj with
    | some dn => { c with domain_cache := strInsert c.domain_cache dn idx }
    | none => c
  else c

/-- The `// Build Forest Domain cache` block; `insert_forest_domain`
only fills a vacant key. -/
def applyCrossRefBlock (c : Caches) (idx : Nat) (obj : Object)
    (lowercase_classes : List String) : Caches :=
  if lowercase_classes.contains "crossref" then
    match getAttrU32 obj "systemFlags" with
    | some system_flags =>
      if system_flags &&& 2 == 2 then
        match getAttrString obj "nCName" with
        | some ncname =>
          if (c.domain_cache ncname).isSome then c
          else { c with domain_cache := strInsert c.domain_cache ncname idx }
        | none => c
      else c
    | none => c
  else c

/-- `CertificateTemplateCache::insert`: add `name` to the set stored
under `template`. -/
def pkiInsertTemplate (name : String) (c : Caches) (template : String) :
    Caches :=
  { c with certificate_template_cache := fun k =>
      if k = template then
        let prev := c.certificate_template_cache template
        if name ∈ prev then prev else prev ++ [name]
      else c.certificate_template_cache k }

/-- The `// Build Certificate Template cache` block. -/
def applyPkiBlock (c : Caches) (_idx : Nat) (obj : Object)
    (lowercase_classes : List String) : Caches :=
  if lowercase_classes.contains "pkienrollmentservice" then
    match getAttrString obj "name" with
    | some name =>
      match getAttrStringVec obj "certificateTemplates" with
      | some templates => templates.foldl (pkiInsertTemplate name) c
      | none => c
    | none => c
  else c

/-- The `objectClass`-guarded blocks of the per-object cache loop:
domain cache, forest-domain cache, certificate-template cache. -/
def applyClassBlocks (c : Caches) (idx : Nat) (obj : Object)
    (sid : Option SID) : Caches :=
  match obj.get_attribute_classes with
  | none => c
  | some classes =>
    let lowercase_classes := classes.map toLowerStr
    applyPkiBlock
      (applyCrossRefBlock
        (applyDomainBlock c idx obj sid lowercase_classes)
        idx obj lowercase_classes)
      idx obj lowercase_classes

/-- The computer-cache block of the per-object cache loop. -/
def applyComputerBlock (c : Caches) (idx : Nat) (obj : Object) : Caches :=
  if isComputer obj then
    let c := match getObjectDnsHostName obj with
      | some dnshostname =>
        { c with computer_cache := upperInsert c.computer_cache dnshostname idx }
      | none => c
    match getObjectName obj with
    | some name =>
      { c with computer_cache := upperInsert c.computer_cache name idx }
    | none => c
  else c

/-- The domain-controller block of the per-object cache loop. -/
def applyUacBlock (c : Caches) (idx : Nat) (obj : Object) : Caches :=
  match getAttrU32 obj "userAccountControl" with
  | some uac =>
    if uac &&& 0x2000 == 0x2000 then
      { c with domain_controllers := c.domain_controllers ++ [idx] }
    else c
  | none => c

/-- One iteration of the `build_object_caches` loop; `none` models the
process abort when `SID::from_bytes` panics. -/
def stepObjectCaches (c : Caches) (idx : Nat) (obj : Object) :
    Option Caches :=
  match getObjectSid obj with
  | none => none
  | some sid =>
    let c := match sid with
      | some s => { c with sid_cache := sidInsert c.sid_cache s idx }
      | none => c
    let c := match getObjectDn obj with
      | some dn => { c with dn_cache := upperInsert c.dn_cache dn idx }
      | none => c
    let c := applyClassBlocks c idx obj sid
    let c := applyComputerBlock c idx obj
    some (applyUacBlock c idx obj)

/-- `build_object_caches`, processing objects from index `k` on. -/
def buildObjectCachesFrom : Nat → List Object → Caches → Option Caches
  | _, [], c => some c
  | idx, obj :: rest, c =>
    match stepObjectCaches c idx obj with
    | some c' => buildObjectCachesFrom (idx + 1) rest c'
    | none => none

/-- One class-table insert into the object-type-GUID cache. -/
def otgInsertClass (c : Caches) (p : Nat × Class) : Caches :=
  { c with object_type_guid_cache := fun k =>
      if k = p.1 then some p.2.schema_id_guid
      else c.object_type_guid_cache k }

/-- One property-table insert into the object-type-GUID cache. -/
def otgInsertProp (c : Caches) (p : Nat × Property) : Caches :=
  { c with object_type_guid_cache := fun k =>
      if k = p.1 then some p.2.schema_id_guid
      else c.object_type_guid_cache k }

/-- `Caches::build_object_type_guid_cache`: class GUIDs then property
GUIDs, sharing the position key space. -/
def buildObjectTypeGuidCache (c : Caches) (snap : Snapshot) : Caches :=
  snap.properties.enum.foldl otgInsertProp
    (snap.classes.enum.foldl otgInsertClass c)

/-- One `build_class_cache` iteration: class name, DN, and the CN of
the first DN component all map to the class index. -/
def classCacheStep (c : Caches) (p : Nat × Class) : Caches :=
  let c := { c with class_cache := strInsert c.class_cache p.2.class_name p.1 }
  let c := { c with class_cache := strInsert c.class_cache p.2.dn p.1 }
  match (splitOnCharL ',' p.2.dn.data).head?.bind
      (fun part => ((splitOnCharL '=' part).get? 1).map String.mk) with
  | some cn => { c with class_cache := strInsert c.class_cache cn p.1 }
  | none => c

/-- `Caches::build_class_cache`. -/
def buildClassCache (c : Caches) (snap : Snapshot) : Caches :=
  snap.classes.enum.foldl classCacheStep c

/-- `Caches::build_caches` starting from `Caches::new`. -/
def Caches.build (snap : Snapshot) : Option Caches :=
  buildObjectCachesFrom 0 snap.objects
    (buildClassCache (buildObjectTypeGuidCache Caches.empty snap) snap)

/-! ## Security descriptor container and ACE translation
(src/output/bloodhound/utils/aces.rs) -/

/-- Modelled from the spec: the parsed self-relative security
descriptor record (`SDDL`).  The file `src/security_descriptor/sddl.rs`
is not present under `src/`; the record layout follows spec §3
(*SecurityDescriptor (SDDL)*) and §4.2, and the `owner_sid` / `dacl`
fields are exactly the ones `Aces::from_security_descriptor` reads. -/
structure SDDL where
  revision : Nat
  sbz1 : Nat
  control_flags : Nat
  owner_sid : Option SID
  group_sid : Option SID
  sacl : Option ACL
  dacl : Option ACL
  deriving Repr, DecidableEq

/-- `ADExplorerSnapshot`: parsed snapshot plus derived caches. -/
structure ADExplorerSnapshot where
  snapshot : Snapshot
  caches : Caches

/-- `ADExplorerSnapshot::get_sid`. -/
def ADExplorerSnapshot.get_sid (snap : ADExplorerSnapshot) (sid : SID) :
    Option Object :=
  (snap.caches.sid_cache sid).bind (fun i => snap.snapshot.objects.get? i)

/-- The BloodHound ACE row emitted by the translator. -/
structure AcesEntry where
  principal_sid : String
  principal_type : String
  right_name : String
  is_inherited : Bool
  deriving Repr, DecidableEq

/-- `Aces::is_inherited`. -/
def aceIsInherited (ace : ACE) : Bool :=
  aceFlagsIsSet ace.header.ace_flags INHERITED_ACE

/-- The deny filter of `from_security_descriptor`. -/
def isDenyAce : ACE → Bool
  | .AccessDenied _ => true
  | .AccessDeniedObject _ => true
  | _ => false

/-- The owner section of `Aces::from_security_descriptor`: a synthetic
`Owns` row when the owner SID is present and resolves in the SID
index. -/
def ownerRowsOf (sd : SDDL) (snap : ADExplorerSnapshot) : List AcesEntry :=
  match sd.owner_sid with
  | some owner =>
    match snap.get_sid owner with
    | some obj => [⟨owner.toStr, type_string obj, "Owns", false⟩]
    | none => []
  | none => []

/-- One DACL-loop iteration of `from_security_descriptor`: rows are
pushed only when the ACE's principal SID resolves. -/
def daclRowStep (snap : ADExplorerSnapshot) (object_type : ObjectType)
    (has_laps : Bool) (acc : List AcesEntry) (ace : ACE) : List AcesEntry :=
  match snap.get_sid ace.sid with
  | some target_obj =>
    acc ++ (rights ace object_type has_laps).map (fun right =>
      ⟨ace.sid.toStr, type_string target_obj, right, aceIsInherited ace⟩)
  | none => acc

/-- The DACL section of `from_security_descriptor`: deny ACEs are
filtered out, the rest accumulate rows in order. -/
def daclRowsOf (sd : SDDL) (snap : ADExplorerSnapshot)
    (object_type : ObjectType) (has_laps : Bool) : List AcesEntry :=
  match sd.dacl with
  | some dacl =>
    (dacl.aces.filter (fun ace => !isDenyAce ace)).foldl
      (daclRowStep snap object_type has_laps) []
  | none => []

/-- `Aces::from_security_descriptor`: a synthetic `Owns` row for a
resolvable owner SID, then one row per (allow ACE, right) pair whose
principal SID resolves in the snapshot. -/
def fromSecurityDescriptor (sd : SDDL) (snap : ADExplorerSnapshot)
    (object_type : ObjectType) (has_laps : Bool) : List AcesEntry :=
  ownerRowsOf sd snap ++ daclRowsOf sd snap object_type has_laps

/-! ## ldap2domain (src/output/bloodhound/common.rs)

Strings are handled at the character-list level, mirroring Rust's
byte-level `split`, `starts_with` and `[3..]` slicing. -/

/-- `starts_with` on character lists. -/
def startsWithL : List Char → List Char → Bool
  | [], _ => true
  | _ :: _, [] => false
  | p :: ps, c :: cs => p == c && startsWithL ps cs

/-- `ldap2domain`: split on commas, keep components whose lowercased
form starts with `dc=`, strip the three-character prefix, join with
dots. -/
def ldap2domain (ldap : String) : String :=
  ⟨List.intercalate ['.']
    (((splitOnCharL ',' ldap.data).filter
        (fun part => startsWithL ['d', 'c', '='] (part.map Char.toLower))).map
      (fun part => part.drop 3))⟩

/-- The spec's reading of one DN component: it contributes its value
exactly when its lowercased prefix is `dc=`. -/
def dcComponentValue (part : List Char) : Option (List Char) :=
  if startsWithL ['d', 'c', '='] (part.map Char.toLower) then
    some (part.drop 3)
  else none

/-- `ldap2domain` as the spec words it: the values of the `dc=`
components, joined by `.`. -/
def ldap2domainSpec (dn : String) : String :=
  ⟨List.intercalate ['.'] ((splitOnCharL ',' dn.data).filterMap dcComponentValue)⟩

/-! # Theorems -/

theorem mem_insSet (s : List String) (x y : String) :
    y ∈ insSet s x ↔ y = x ∨ y ∈ s := by
  unfold insSet
  split
  · constructor
    · exact fun h => Or.inr h
    · rintro (rfl | h) <;> assumption
  · simp [List.mem_append, or_comm]

theorem notMem_insSet (s : List String) (x y : String) (hxy : y ≠ x)
    (hy : y ∉ s) : y ∉ insSet s x := by
  rw [mem_insSet]
  rintro (rfl | h) <;> [exact hxy rfl; exact hy h]

/-- The concrete GUID value of DS-Replication-Get-Changes
(`1131f6aa-9c07-11d1-f79f-00c04fc2dcd2`) as parsed from ACE bytes. -/
def guidGetChanges : GUID :=
  ⟨0x1131f6aa, 0x9c07, 0x11d1, [0xf7, 0x9f, 0x00, 0xc0, 0x4f, 0xc2, 0xdc, 0xd2]⟩

/-- The concrete GUID value of Service-Principal-Name
(`f3a64788-5306-11d1-a9c5-0000f80367c1`). -/
def guidWriteSPN : GUID :=
  ⟨0xf3a64788, 0x5306, 0x11d1, [0xa9, 0xc5, 0x00, 0x00, 0xf8, 0x03, 0x67, 0xc1]⟩

/-- A concrete principal SID (S-1-5-21). -/
def sidSample : SID :=
  ⟨1, 1, [0, 0, 0, 0, 0, 5], [21] ++ List.replicate 14 0⟩

/-- `AccessAllowedObject` ACE with mask `DS_CONTROL_ACCESS` and
object_type DS-Replication-Get-Changes. -/
def aceGetChanges : ACE :=
  .AccessAllowedObject
    ⟨⟨.AccessAllowedObject, 0, 40⟩, 0x100, 1, some guidGetChanges, none, sidSample⟩

/-- `AccessAllowedObject` ACE with mask `DS_WRITE_PROP` and object_type
Service-Principal-Name. -/
def aceWriteSPN : ACE :=
  .AccessAllowedObject
    ⟨⟨.AccessAllowedObject, 0, 40⟩, 0x20, 1, some guidWriteSPN, none, sidSample⟩

/-- C1: the claim says this ACE yields exactly the right set
`GetChanges` on a Domain target.  The code instead yields
`AllExtendedRights`: `GUID::to_string` renders UPPERCASE hex while
`ACEGuid::from_guid` compares against lowercase literals, so the
DS-Replication-Get-Changes GUID is never recognised and the
absent-or-unmatched arm fires. -/
theorem C1_code_divergence :
    guidGetChanges.toStr = "1131F6AA-9C07-11D1-F79F-00C04FC2DCD2"
    ∧ ACEGuid.fromGuid guidGetChanges = none
    ∧ rights aceGetChanges ObjectType.Domain false = ["AllExtendedRights"] := by
  refine ⟨rfl, rfl, rfl⟩

/-- C2: an ACE whose mask carries `GENERIC_ALL` and whose object type
is absent or the all-zero GUID translates to exactly the set
`GenericAll`, for every target kind and LAPS flag, whatever other mask
bits are set. -/
theorem C2_genericAll_shortCircuits (ace : ACE) (ot : ObjectType) (hl : Bool)
    (hga : AccessMask.hasFlag ace.mask AccessMask.GENERIC_ALL = true)
    (hot : ace.object_type = none
      ∨ ace.object_type = some ⟨0, 0, 0, [0, 0, 0, 0, 0, 0, 0, 0]⟩) :
    rights ace ot hl = ["GenericAll"] := by
  have hz : ACEGuid.fromGuid ⟨0, 0, 0, [0, 0, 0, 0, 0, 0, 0, 0]⟩
      = some ACEGuid.AllGuid := by decide
  have ht : (ace.object_type_s.isNone
      || ace.object_type_s == some ACEGuid.AllGuid) = true := by
    rcases hot with h | h
    · simp [ACE.object_type_s, h]
    · simp [ACE.object_type_s, h, hz]
  unfold rights
  simp only [hga, if_true, ht]
  rfl

/-- C2 witness: mask `GENERIC_ALL ||| WRITE_DACL` with the all-zero
object-type GUID on a Group target yields exactly `GenericAll`. -/
theorem C2_witness :
    rights (.AccessAllowedObject ⟨⟨.AccessAllowedObject, 0, 40⟩, 0x10040000, 1,
        some ⟨0, 0, 0, [0, 0, 0, 0, 0, 0, 0, 0]⟩, none, sidSample⟩)
      ObjectType.Group false = ["GenericAll"] :=
  C2_genericAll_shortCircuits
    (.AccessAllowedObject ⟨⟨.AccessAllowedObject, 0, 40⟩, 0x10040000, 1,
        some ⟨0, 0, 0, [0, 0, 0, 0, 0, 0, 0, 0]⟩, none, sidSample⟩)
    ObjectType.Group false (by decide) (Or.inr rfl)

/-- C3: the claim says this ACE yields exactly `WriteSPN` on a User
target (and no `GenericWrite`).  The code instead yields
`GenericWrite`: the uppercase/lowercase mismatch between
`GUID::to_string` and `ACEGuid::from_guid` leaves the
Service-Principal-Name GUID unrecognised, so the translator treats the
object type as unmatched (absent) and takes the `GenericWrite` arm. -/
theorem C3_code_divergence :
    guidWriteSPN.toStr = "F3A64788-5306-11D1-A9C5-0000F80367C1"
    ∧ ACEGuid.fromGuid guidWriteSPN = none
    ∧ rights aceWriteSPN ObjectType.User false = ["GenericWrite"] := by
  refine ⟨rfl, rfl, rfl⟩

/-- C4: the claim says a bad ACL revision or nonzero sbz byte makes
`parse_acl` return a MalformedInput error to the caller; the code
instead executes `panic!` for all three conditions (revision 3, sbz1
nonzero, sbz2 nonzero), aborting rather than returning an error
value. -/
theorem C4_code_divergence :
    parseAcl [3, 0, 8, 0, 0, 0, 0, 0] = PResult.panicked
    ∧ parseAcl [2, 1, 8, 0, 0, 0, 0, 0] = PResult.panicked
    ∧ parseAcl [2, 0, 8, 0, 0, 0, 1, 0] = PResult.panicked := by
  refine ⟨rfl, rfl, rfl⟩

/-- Bytes declaring 16 sub-authorities, with all 64 payload bytes
present. -/
def sidPanicBytes : List Nat := [1, 16, 0, 0, 0, 0, 0, 5] ++ List.replicate 64 0

/-- C5: the claim says a sub-authority count above 15 makes SID parsing
return a MalformedInput error to the caller; when the input is long
enough to supply the declared sub-authorities the code instead panics
(`sub_authorities[..16]` is out of range for the 15-element array),
aborting rather than returning an error value. -/
theorem C5_code_divergence :
    parseSid sidPanicBytes = PResult.panicked
    ∧ parseSid sidPanicBytes ≠ PResult.fail := by
  have h : parseSid sidPanicBytes = PResult.panicked := rfl
  exact ⟨h, by rw [h]; exact fun hc => PResult.noConfusion hc⟩

/-- C8: `ldap2domain` returns the values of exactly the comma-separated
components whose lowercased prefix is `dc=`, joined by dots, and in
particular maps `CN=x,OU=a,DC=foo,DC=bar` to `foo.bar` and
`CN=x,OU=a` to the empty string. -/
theorem C8_ldap2domain :
    (∀ dn, ldap2domain dn = ldap2domainSpec dn)
    ∧ ldap2domain "CN=x,OU=a,DC=foo,DC=bar" = "foo.bar"
    ∧ ldap2domain "CN=x,OU=a" = "" := by
  refine ⟨fun dn => ?_, rfl, rfl⟩
  unfold ldap2domain ldap2domainSpec
  congr 2
  induction splitOnCharL ',' dn.data with
  | nil => rfl
  | cons h t ih =>
    by_cases hp : startsWithL ['d', 'c', '='] (h.map Char.toLower) = true
    · simp [List.filter_cons, hp, List.filterMap_cons, dcComponentValue, ih]
    · simp [List.filter_cons, hp, List.filterMap_cons, dcComponentValue, ih]

/-- C6: whenever `Object::parse` returns, the stream cursor sits
exactly `obj_size` bytes past the object's start position — the final
seek to `obj_start + obj_size` is authoritative, independent of the
mapping table and of where attribute decoding wandered. -/
theorem C6_cursor_advance (r : Rdr) (props : List Property) (o : Object)
    (r' : Rdr) (h : Object.parse r props = Except.ok (o, r')) :
    r'.pos = r.pos + o.obj_size := by
  unfold Object.parse at h
  cases hh : parseObjHeader r with
  | none => rw [hh] at h; exact absurd h (by simp)
  | some v =>
    obtain ⟨⟨obj_size, table_size, mt⟩, r1⟩ := v
    rw [hh] at h
    simp only [Except.ok.injEq, Prod.mk.injEq] at h
    obtain ⟨ho, hr⟩ := h
    rw [← hr, ← ho]
    rfl

/-- Bytes of one object: `obj_size = 16`, one mapping entry whose
property index 5 is out of range for an empty property table. -/
def sampleObjBytes : List Nat :=
  [16, 0, 0, 0, 1, 0, 0, 0, 5, 0, 0, 0, 0, 0, 0, 0]

/-- C6 witness: parsing the sample object from position 0 leaves the
cursor at 16 = 0 + obj_size. -/
theorem C6_witness :
    Object.parse ⟨sampleObjBytes, 0⟩ []
      = Except.ok (⟨16, 1, [⟨5, 0⟩], []⟩, ⟨sampleObjBytes, 16⟩)
    ∧ (⟨sampleObjBytes, 16⟩ : Rdr).pos = (⟨sampleObjBytes, 0⟩ : Rdr).pos + 16 :=
  ⟨rfl, C6_cursor_advance ⟨sampleObjBytes, 0⟩ [] ⟨16, 1, [⟨5, 0⟩], []⟩
    ⟨sampleObjBytes, 16⟩ rfl⟩

/-- C9: once `obj_size`, `table_size` and the mapping table have been
read, `Object::parse` always succeeds — a failing mapping entry
(property index out of range, negative absolute position, or a failing
`Attribute::parse`) is skipped by the `filter_map`, never propagated as
an error. -/
theorem C9_attr_failures_nonfatal (r : Rdr) (props : List Property)
    (v : (Nat × Nat × List MappingEntry) × Rdr)
    (h : parseObjHeader r = some v) :
    ∃ o r', Object.parse r props = Except.ok (o, r') := by
  obtain ⟨⟨obj_size, table_size, mt⟩, r1⟩ := v
  refine ⟨⟨obj_size, table_size, mt,
    (decodeAttrs props r.pos mt r1).1⟩,
    seekTo (r.pos + obj_size) (decodeAttrs props r.pos mt r1).2, ?_⟩
  unfold Object.parse
  rw [h]

/-- C9 witness: the sample object's single mapping entry fails to
decode (property index 5 with no properties), yet parsing succeeds and
simply omits the attribute. -/
theorem C9_witness :
    parseObjHeader ⟨sampleObjBytes, 0⟩
      = some ((16, 1, [⟨5, 0⟩]), ⟨sampleObjBytes, 16⟩)
    ∧ (∃ o r', Object.parse ⟨sampleObjBytes, 0⟩ [] = Except.ok (o, r'))
    ∧ Object.parse ⟨sampleObjBytes, 0⟩ []
      = Except.ok (⟨16, 1, [⟨5, 0⟩], []⟩, ⟨sampleObjBytes, 16⟩) :=
  ⟨rfl, C9_attr_failures_nonfatal ⟨sampleObjBytes, 0⟩ []
    ((16, 1, [⟨5, 0⟩]), ⟨sampleObjBytes, 16⟩) rfl, rfl⟩

theorem owns_notin_writeDaclOwner (m : Nat) (r : List String)
    (h : ("Owns" : String) ∉ r) : ("Owns" : String) ∉ rightsWriteDaclOwner m r := by
  unfold rightsWriteDaclOwner
  dsimp only
  split
  · apply notMem_insSet _ _ _ (by decide)
    split
    · exact notMem_insSet _ _ _ (by decide) h
    · exact h
  · split
    · exact notMem_insSet _ _ _ (by decide) h
    · exact h

theorem owns_notin_addSelf (m : Nat) (ot : ObjectType) (t : Option ACEGuid)
    (r : List String) (h : ("Owns" : String) ∉ r) :
    ("Owns" : String) ∉ rightsAddSelf m ot t r := by
  unfold rightsAddSelf
  split
  · exact notMem_insSet _ _ _ (by decide) h
  · exact h

theorem owns_notin_extended (m : Nat) (ot : ObjectType) (t : Option ACEGuid)
    (hl : Bool) (r : List String) (h : ("Owns" : String) ∉ r) :
    ("Owns" : String) ∉ rightsExtended m ot t hl r := by
  unfold rightsExtended
  split
  · cases ot <;> (try rcases t with _ | g) <;> (try cases g) <;>
      dsimp only <;>
      (try split) <;> (try split) <;>
      (first
        | exact h
        | exact notMem_insSet _ _ _ (by decide) h)
  · exact h

theorem owns_notin_writeProp (m : Nat) (ot : ObjectType) (t : Option ACEGuid)
    (r : List String) (h : ("Owns" : String) ∉ r) :
    ("Owns" : String) ∉ rightsWriteProp m ot t r := by
  unfold rightsWriteProp
  split
  · cases ot <;> rcases t with _ | g <;> (try cases g) <;>
      dsimp only <;>
      (first
        | exact h
        | exact notMem_insSet _ _ _ (by decide) h)
  · exact h

/-- The translator never invents the owner right: `Owns` is not among
the names `Aces::rights` can emit. -/
theorem owns_notin_rights (ace : ACE) (ot : ObjectType) (hl : Bool) :
    ("Owns" : String) ∉ rights ace ot hl := by
  unfold rights
  dsimp only
  split
  · split
    · exact notMem_insSet _ _ _ (by decide) (by simp)
    · simp
  · exact owns_notin_writeProp _ _ _ _
      (owns_notin_extended _ _ _ _ _
        (owns_notin_addSelf _ _ _ _
          (owns_notin_writeDaclOwner _ _ (by simp))))

/-- Any element the DACL fold adds carries a right name produced by
`Aces::rights` for some ACE of the list. -/
theorem mem_daclFold (snap : ADExplorerSnapshot) (ot : ObjectType)
    (hl : Bool) (l : List ACE) :
    ∀ (acc : List AcesEntry) (e : AcesEntry),
      e ∈ l.foldl (daclRowStep snap ot hl) acc →
      e ∈ acc ∨ ∃ ace ∈ l, e.right_name ∈ rights ace ot hl := by
  induction l with
  | nil => intro acc e he; exact Or.inl he
  | cons ace l ih =>
    intro acc e he
    rw [List.foldl_cons] at he
    rcases ih _ e he with hacc | ⟨a, ha, hr⟩
    · unfold daclRowStep at hacc
      rcases hg : snap.get_sid ace.sid with _ | tobj
      · rw [hg] at hacc
        exact Or.inl hacc
      · rw [hg] at hacc
        rcases List.mem_append.mp hacc with h1 | h2
        · exact Or.inl h1
        · obtain ⟨right, hright, heq⟩ := List.mem_map.mp h2
          refine Or.inr ⟨ace, List.mem_cons_self _ _, ?_⟩
          rw [← heq]
          exact hright
    · exact Or.inr ⟨a, List.mem_cons_of_mem _ ha, hr⟩

/-- C7: a security descriptor whose owner SID resolves in the SID index
contributes a leading synthetic `Owns` entry with `is_inherited =
false`; when the owner SID is absent or unresolvable, no entry of the
translation carries the right `Owns`. -/
theorem C7_owner_row (sd : SDDL) (snap : ADExplorerSnapshot)
    (ot : ObjectType) (hl : Bool) :
    (∀ owner obj, sd.owner_sid = some owner → snap.get_sid owner = some obj →
      ∃ rest, fromSecurityDescriptor sd snap ot hl
        = ⟨owner.toStr, type_string obj, "Owns", false⟩ :: rest)
    ∧ ((sd.owner_sid = none
        ∨ ∃ owner, sd.owner_sid = some owner ∧ snap.get_sid owner = none) →
      ∀ e ∈ fromSecurityDescriptor sd snap ot hl, e.right_name ≠ "Owns") := by
  constructor
  · intro owner obj hown hget
    unfold fromSecurityDescriptor ownerRowsOf
    rw [hown]
    dsimp only
    rw [hget]
    exact ⟨_, rfl⟩
  · intro hno e he
    have h0 : ownerRowsOf sd snap = [] := by
      unfold ownerRowsOf
      rcases hno with hn | ⟨owner, hown, hget⟩
      · rw [hn]
      · rw [hown]
        dsimp only
        rw [hget]
    unfold fromSecurityDescriptor at he
    rw [h0] at he
    simp only [List.nil_append] at he
    unfold daclRowsOf at he
    rcases hd : sd.dacl with _ | dacl
    · rw [hd] at he
      simp at he
    · rw [hd] at he
      rcases mem_daclFold snap ot hl _ [] e he with hnil | ⟨ace, _, hr⟩
      · simp at hnil
      · intro hc
        rw [hc] at hr
        exact owns_notin_rights ace ot hl hr

/-- An object with no attributes (classifies as Unknown). -/
def emptyObj : Object := ⟨0, 0, [], []⟩

/-- Caches resolving only `sidSample`, to object index 0. -/
def c7caches : Caches :=
  { Caches.empty with
    sid_cache := fun s => if s = sidSample then some 0 else none }

/-- A one-object snapshot whose SID index resolves `sidSample`. -/
def c7snap : ADExplorerSnapshot := ⟨⟨[], [emptyObj], []⟩, c7caches⟩

/-- C7 witness: with a resolvable owner the translation starts with the
synthetic `Owns` row; with no owner nothing carries `Owns`. -/
theorem C7_witness :
    (∃ rest, fromSecurityDescriptor ⟨1, 0, 0, some sidSample, none, none, none⟩
        c7snap ObjectType.Group false
      = ⟨sidSample.toStr, type_string emptyObj, "Owns", false⟩ :: rest)
    ∧ (∀ e ∈ fromSecurityDescriptor ⟨1, 0, 0, none, none, none, none⟩
        c7snap ObjectType.Group false, e.right_name ≠ "Owns") :=
  ⟨(C7_owner_row ⟨1, 0, 0, some sidSample, none, none, none⟩ c7snap
      ObjectType.Group false).1 sidSample emptyObj rfl rfl,
    (C7_owner_row ⟨1, 0, 0, none, none, none, none⟩ c7snap
      ObjectType.Group false).2 (Or.inl rfl)⟩

/-! ### C10: last-wins characterisation of the SID and DN caches -/

/-- The SID key an object contributes to the SID cache, when any. -/
def sidKeyOf (obj : Object) : Option SID :=
  match getObjectSid obj with
  | some (some s) => some s
  | _ => none

/-- The (upper-cased) DN key an object contributes to the DN cache. -/
def dnKeyOf (obj : Object) : Option String :=
  (getObjectDn obj).map toUpperStr

theorem foldl_cache_pres {α : Type} (f : Caches → α → Caches)
    (hf : ∀ c a, (f c a).sid_cache = c.sid_cache
      ∧ (f c a).dn_cache = c.dn_cache) :
    ∀ (l : List α) (c : Caches),
      (l.foldl f c).sid_cache = c.sid_cache
      ∧ (l.foldl f c).dn_cache = c.dn_cache := by
  intro l
  induction l with
  | nil => intro c; exact ⟨rfl, rfl⟩
  | cons a l ih =>
    intro c
    rw [List.foldl_cons]
    exact ⟨(ih _).1.trans (hf c a).1, (ih _).2.trans (hf c a).2⟩

theorem applyDomainBlock_pres (c : Caches) (idx : Nat) (obj : Object)
    (sid : Option SID) (lcs : List String) :
    (applyDomainBlock c idx obj sid lcs).sid_cache = c.sid_cache
    ∧ (applyDomainBlock c idx obj sid lcs).dn_cache = c.dn_cache := by
  unfold applyDomainBlock
  split
  · dsimp only
    split <;> exact ⟨rfl, rfl⟩
  · exact ⟨rfl, rfl⟩

theorem applyCrossRefBlock_pres (c : Caches) (idx : Nat) (obj : Object)
    (lcs : List String) :
    (applyCrossRefBlock c idx obj lcs).sid_cache = c.sid_cache
    ∧ (applyCrossRefBlock c idx obj lcs).dn_cache = c.dn_cache := by
  unfold applyCrossRefBlock
  repeat' split
  all_goals exact ⟨rfl, rfl⟩

theorem applyPkiBlock_pres (c : Caches) (idx : Nat) (obj : Object)
    (lcs : List String) :
    (applyPkiBlock c idx obj lcs).sid_cache = c.sid_cache
    ∧ (applyPkiBlock c idx obj lcs).dn_cache = c.dn_cache := by
  unfold applyPkiBlock
  repeat' split
  all_goals first
    | exact ⟨rfl, rfl⟩
    | exact foldl_cache_pres (pkiInsertTemplate _) (fun c a => ⟨rfl, rfl⟩) _ _

theorem applyClassBlocks_pres (c : Caches) (idx : Nat) (obj : Object)
    (sid : Option SID) :
    (applyClassBlocks c idx obj sid).sid_cache = c.sid_cache
    ∧ (applyClassBlocks c idx obj sid).dn_cache = c.dn_cache := by
  unfold applyClassBlocks
  split
  · exact ⟨rfl, rfl⟩
  · dsimp only
    exact ⟨(applyPkiBlock_pres _ _ _ _).1.trans
        ((applyCrossRefBlock_pres _ _ _ _).1.trans
          (applyDomainBlock_pres _ _ _ _ _).1),
      (applyPkiBlock_pres _ _ _ _).2.trans
        ((applyCrossRefBlock_pres _ _ _ _).2.trans
          (applyDomainBlock_pres _ _ _ _ _).2)⟩

theorem applyComputerBlock_pres (c : Caches) (idx : Nat) (obj : Object) :
    (applyComputerBlock c idx obj).sid_cache = c.sid_cache
    ∧ (applyComputerBlock c idx obj).dn_cache = c.dn_cache := by
  unfold applyComputerBlock
  repeat' split
  all_goals exact ⟨rfl, rfl⟩

theorem applyUacBlock_pres (c : Caches) (idx : Nat) (obj : Object) :
    (applyUacBlock c idx obj).sid_cache = c.sid_cache
    ∧ (applyUacBlock c idx obj).dn_cache = c.dn_cache := by
  unfold applyUacBlock
  repeat' split
  all_goals exact ⟨rfl, rfl⟩

theorem outerBlocks_pres (c : Caches) (idx : Nat) (obj : Object)
    (sid : Option SID) :
    (applyUacBlock (applyComputerBlock (applyClassBlocks c idx obj sid)
        idx obj) idx obj).sid_cache = c.sid_cache
    ∧ (applyUacBlock (applyComputerBlock (applyClassBlocks c idx obj sid)
        idx obj) idx obj).dn_cache = c.dn_cache :=
  ⟨(applyUacBlock_pres _ _ _).1.trans
      ((applyComputerBlock_pres _ _ _).1.trans
        (applyClassBlocks_pres _ _ _ _).1),
    (applyUacBlock_pres _ _ _).2.trans
      ((applyComputerBlock_pres _ _ _).2.trans
        (applyClassBlocks_pres _ _ _ _).2)⟩

/-- One loop iteration updates the SID cache at exactly `sidKeyOf obj`
and the DN cache at exactly `dnKeyOf obj`. -/
theorem step_caches_char (c : Caches) (idx : Nat) (obj : Object)
    (c' : Caches) (h : stepObjectCaches c idx obj = some c') :
    (∀ s, c'.sid_cache s
        = if sidKeyOf obj = some s then some idx else c.sid_cache s)
    ∧ (∀ key, c'.dn_cache key
        = if dnKeyOf obj = some key then some idx else c.dn_cache key) := by
  unfold stepObjectCaches at h
  rcases hsid : getObjectSid obj with _ | sid
  · rw [hsid] at h
    exact absurd h (by simp)
  rw [hsid] at h
  dsimp only at h
  rcases sid with _ | s0
  · rcases hdn : getObjectDn obj with _ | dn
    · rw [hdn] at h
      dsimp only at h
      rw [Option.some_inj] at h
      subst h
      have hk : sidKeyOf obj = none := by simp [sidKeyOf, hsid]
      have hdk : dnKeyOf obj = none := by simp [dnKeyOf, hdn]
      constructor
      · intro s
        rw [congrFun (outerBlocks_pres _ idx obj _).1 s, hk]
        simp
      · intro key
        rw [congrFun (outerBlocks_pres _ idx obj _).2 key, hdk]
        simp
    · rw [hdn] at h
      dsimp only at h
      rw [Option.some_inj] at h
      subst h
      have hk : sidKeyOf obj = none := by simp [sidKeyOf, hsid]
      have hdk : dnKeyOf obj = some (toUpperStr dn) := by
        simp [dnKeyOf, hdn]
      constructor
      · intro s
        rw [congrFun (outerBlocks_pres _ idx obj _).1 s, hk]
        simp
      · intro key
        rw [congrFun (outerBlocks_pres _ idx obj _).2 key, hdk]
        by_cases hkk : key = toUpperStr dn
        · subst hkk
          simp [upperInsert]
        · have hkk' : ¬ toUpperStr dn = key := fun hh => hkk hh.symm
          simp [upperInsert, hkk, hkk']
  · rcases hdn : getObjectDn obj with _ | dn
    · rw [hdn] at h
      dsimp only at h
      rw [Option.some_inj] at h
      subst h
      have hk : sidKeyOf obj = some s0 := by simp [sidKeyOf, hsid]
      have hdk : dnKeyOf obj = none := by simp [dnKeyOf, hdn]
      constructor
      · intro s
        rw [congrFun (outerBlocks_pres _ idx obj _).1 s, hk]
        by_cases hss : s = s0
        · subst hss
          simp [sidInsert]
        · have hss' : ¬ s0 = s := fun hh => hss hh.symm
          simp [sidInsert, hss, hss']
      · intro key
        rw [congrFun (outerBlocks_pres _ idx obj _).2 key, hdk]
        simp
    · rw [hdn] at h
      dsimp only at h
      rw [Option.some_inj] at h
      subst h
      have hk : sidKeyOf obj = some s0 := by simp [sidKeyOf, hsid]
      have hdk : dnKeyOf obj = some (toUpperStr dn) := by
        simp [dnKeyOf, hdn]
      constructor
      · intro s
        rw [congrFun (outerBlocks_pres _ idx obj _).1 s, hk]
        by_cases hss : s = s0
        · subst hss
          simp [sidInsert]
        · have hss' : ¬ s0 = s := fun hh => hss hh.symm
          simp [sidInsert, hss, hss']
      · intro key
        rw [congrFun (outerBlocks_pres _ idx obj _).2 key, hdk]
        by_cases hkk : key = toUpperStr dn
        · subst hkk
          simp [upperInsert]
        · have hkk' : ¬ toUpperStr dn = key := fun hh => hkk hh.symm
          simp [upperInsert, hkk, hkk']

/-- Processing objects from index `k`: the sid/dn caches hold exactly
the latest contributor of each key, or an untouched initial entry whose
key no processed object carries. -/
theorem buildFrom_inv (l : List Object) :
    ∀ (k : Nat) (c c' : Caches),
      buildObjectCachesFrom k l c = some c' →
      (∀ s i, c'.sid_cache s = some i →
        (c.sid_cache s = some i
          ∧ ∀ m obj, l.get? m = some obj → sidKeyOf obj ≠ some s)
        ∨ (∃ m obj, l.get? m = some obj ∧ i = k + m ∧ sidKeyOf obj = some s
            ∧ ∀ m' obj', m < m' → l.get? m' = some obj' →
              sidKeyOf obj' ≠ some s))
      ∧ (∀ key i, c'.dn_cache key = some i →
        (c.dn_cache key = some i
          ∧ ∀ m obj, l.get? m = some obj → dnKeyOf obj ≠ some key)
        ∨ (∃ m obj, l.get? m = some obj ∧ i = k + m ∧ dnKeyOf obj = some key
            ∧ ∀ m' obj', m < m' → l.get? m' = some obj' →
              dnKeyOf obj' ≠ some key)) := by
  induction l with
  | nil =>
    intro k c c' h
    have h' : some c = some c' := h
    rw [Option.some_inj] at h'
    subst h'
    constructor <;> intro key i hk <;>
      exact Or.inl ⟨hk, by intro m obj hm; simp at hm⟩
  | cons o rest ih =>
    intro k c c' h
    have h' : (match stepObjectCaches c k o with
      | some c1 => buildObjectCachesFrom (k + 1) rest c1
      | none => none) = some c' := h
    rcases hs : stepObjectCaches c k o with _ | c1
    · rw [hs] at h'
      exact absurd h' (by simp)
    · rw [hs] at h'
      obtain ⟨ihs, ihd⟩ := ih (k + 1) c1 c' h'
      obtain ⟨hstep_s, hstep_d⟩ := step_caches_char c k o c1 hs
      constructor
      · intro s i hi
        rcases ihs s i hi with ⟨hc1, hnone⟩ | ⟨m, obj, hm, hieq, hkeym, hafter⟩
        · rw [hstep_s s] at hc1
          by_cases hko : sidKeyOf o = some s
          · rw [if_pos hko] at hc1
            rw [Option.some_inj] at hc1
            refine Or.inr ⟨0, o, rfl, by omega, hko, ?_⟩
            intro m' obj' hm' hget
            rcases m' with _ | m''
            · omega
            · exact hnone m'' obj' (by simpa using hget)
          · rw [if_neg hko] at hc1
            refine Or.inl ⟨hc1, ?_⟩
            intro m obj hm
            rcases m with _ | m''
            · simp at hm
              subst hm
              exact hko
            · exact hnone m'' obj (by simpa using hm)
        · refine Or.inr ⟨m + 1, obj, by simpa using hm, by omega, hkeym, ?_⟩
          intro m' obj' hm' hget
          rcases m' with _ | m''
          · omega
          · exact hafter m'' obj' (by omega) (by simpa using hget)
      · intro key i hi
        rcases ihd key i hi with ⟨hc1, hnone⟩ | ⟨m, obj, hm, hieq, hkeym, hafter⟩
        · rw [hstep_d key] at hc1
          by_cases hko : dnKeyOf o = some key
          · rw [if_pos hko] at hc1
            rw [Option.some_inj] at hc1
            refine Or.inr ⟨0, o, rfl, by omega, hko, ?_⟩
            intro m' obj' hm' hget
            rcases m' with _ | m''
            · omega
            · exact hnone m'' obj' (by simpa using hget)
          · rw [if_neg hko] at hc1
            refine Or.inl ⟨hc1, ?_⟩
            intro m obj hm
            rcases m with _ | m''
            · simp at hm
              subst hm
              exact hko
            · exact hnone m'' obj (by simpa using hm)
        · refine Or.inr ⟨m + 1, obj, by simpa using hm, by omega, hkeym, ?_⟩
          intro m' obj' hm' hget
          rcases m' with _ | m''
          · omega
          · exact hafter m'' obj' (by omega) (by simpa using hget)

/-- The class/GUID cache builders leave the SID and DN caches empty. -/
theorem base_caches_empty (snap : Snapshot) :
    (buildClassCache (buildObjectTypeGuidCache Caches.empty snap)
      snap).sid_cache = Caches.empty.sid_cache
    ∧ (buildClassCache (buildObjectTypeGuidCache Caches.empty snap)
      snap).dn_cache = Caches.empty.dn_cache := by
  have hcls : ∀ (c : Caches) (p : Nat × Class),
      (classCacheStep c p).sid_cache = c.sid_cache
      ∧ (classCacheStep c p).dn_cache = c.dn_cache := by
    intro c p
    unfold classCacheStep
    dsimp only
    split <;> exact ⟨rfl, rfl⟩
  have h1 := foldl_cache_pres otgInsertClass (fun c a => ⟨rfl, rfl⟩)
    snap.classes.enum Caches.empty
  have h2 := foldl_cache_pres otgInsertProp (fun c a => ⟨rfl, rfl⟩)
    snap.properties.enum (snap.classes.enum.foldl otgInsertClass Caches.empty)
  have h3 := foldl_cache_pres classCacheStep hcls snap.classes.enum
    (buildObjectTypeGuidCache Caches.empty snap)
  unfold buildClassCache buildObjectTypeGuidCache
  unfold buildObjectTypeGuidCache at h3
  exact ⟨h3.1.trans (h2.1.trans h1.1), h3.2.trans (h2.2.trans h1.2)⟩

/-- C10: after `build_caches`, every SID-cache key maps to the index of
an object carrying that `objectSid`, every DN-cache key (upper-cased)
to the index of an object carrying that `distinguishedName`, and in
both cases to the LAST such object in snapshot order. -/
theorem C10_cache_last_wins (snap : Snapshot) (c' : Caches)
    (h : Caches.build snap = some c') :
    (∀ s i, c'.sid_cache s = some i →
      ∃ obj, snap.objects.get? i = some obj ∧ sidKeyOf obj = some s
        ∧ ∀ j obj', i < j → snap.objects.get? j = some obj' →
          sidKeyOf obj' ≠ some s)
    ∧ (∀ key i, c'.dn_cache key = some i →
      ∃ obj, snap.objects.get? i = some obj ∧ dnKeyOf obj = some key
        ∧ ∀ j obj', i < j → snap.objects.get? j = some obj' →
          dnKeyOf obj' ≠ some key) := by
  unfold Caches.build at h
  obtain ⟨hs, hd⟩ := buildFrom_inv snap.objects 0 _ c' h
  obtain ⟨hbs, hbd⟩ := base_caches_empty snap
  constructor
  · intro s i hi
    rcases hs s i hi with ⟨hc, _⟩ | ⟨m, obj, hm, hieq, hkeym, hafter⟩
    · rw [congrFun hbs s] at hc
      exact absurd hc (by simp [Caches.empty])
    · have him : i = m := by omega
      subst him
      exact ⟨obj, hm, hkeym,
        fun j obj' hij hget => hafter j obj' (by omega) hget⟩
  · intro key i hi
    rcases hd key i hi with ⟨hc, _⟩ | ⟨m, obj, hm, hieq, hkeym, hafter⟩
    · rw [congrFun hbd key] at hc
      exact absurd hc (by simp [Caches.empty])
    · have him : i = m := by omega
      subst him
      exact ⟨obj, hm, hkeym,
        fun j obj' hij hget => hafter j obj' (by omega) hget⟩

/-- An object carrying `objectSid` bytes for S-1-5-21 (= `sidSample`). -/
def c10obj : Object :=
  ⟨8, 0, [],
    [("objectSid", ⟨1, [AttributeValue.OctetString
      [1, 1, 0, 0, 0, 0, 0, 5, 21, 0, 0, 0]]⟩)]⟩

/-- Two objects with the same `objectSid`. -/
def c10snap : Snapshot := ⟨[], [c10obj, c10obj], []⟩

/-- C10 witness: with two objects sharing a SID, the built cache maps
that SID to index 1 — the later object — and the theorem recovers the
last-wins characterisation for it. -/
theorem C10_witness :
    ∃ c', Caches.build c10snap = some c'
      ∧ c'.sid_cache sidSample = some 1
      ∧ ∃ obj, c10snap.objects.get? 1 = some obj
          ∧ sidKeyOf obj = some sidSample
          ∧ ∀ j obj', 1 < j → c10snap.objects.get? j = some obj' →
            sidKeyOf obj' ≠ some sidSample := by
  have hb : (Caches.build c10snap).isSome = true := rfl
  refine ⟨(Caches.build c10snap).get hb, (Option.some_get hb).symm, rfl, ?_⟩
  exact (C10_cache_last_wins c10snap ((Caches.build c10snap).get hb)
    (Option.some_get hb).symm).1 sidSample 1 rfl

end ADE
